import Mathlib

/-!
# Verification of the chemevol chemical-evolution engine

This file gives a shallow embedding, over `ℚ`, of the core of
`chemevol/evolve.py`: the forward-Euler time-integration loop
`ChemModel.gas_metal_dust_mass`, the supernova-rate precomputation
`ChemModel.supernova_rate`, the IMF / dust-source selection in
`ChemModel.__init__`, and the batch driver `BulkEvolve.evolve_all`.

The helper module `chemevol/functions.py` (astration, inflow/outflow rates,
grain growth, dust destruction, the stellar mass integral, the IMF densities)
and `chemevol/lookups.py` (the lifetime table lookups) are not part of the
sources available here; following the spec they are either modelled from the
spec's own description (doc comments below say so explicitly) or kept as
abstract parameters of the engine, so every theorem quantifying over them
holds for the real functions in particular.

Python floats are modelled as exact rationals; all the properties proved
here are structural (update formulas, early termination, clamping, grid
alignment) and do not depend on rounding.
-/

/-- Modelled from the spec: `astration` from the missing `chemevol/functions.py`.
Spec 4.2: "Astration rate(component_mass, gas_mass, sfr) = component_mass/gas_mass
x sfr when gas_mass > 0, else 0." -/
def astration (component_mass gas_mass sfr : ℚ) : ℚ :=
  if 0 < gas_mass then component_mass / gas_mass * sfr else 0

/-- Modelled from the spec: the remaining stateless physical-rate functions of the
missing `chemevol/functions.py`, kept abstract.  Each field stands for the
function of the same name, applied to the state-dependent arguments that the
loop in `ChemModel.gas_metal_dust_mass` passes at each step; the configuration
arguments (`inflows`/`outflows` switches and parameters, `choice_dust`,
`delta_lims`, `reduce_sn`, `epsilon`, `coldfraction`, `availablefraction`,
`eff_snrate`, the chosen IMF, and the derived `oxy_metal_inflow`) are constant
over a run and are folded into the field.  Theorems quantified over `Physics`
therefore hold for every configuration and for the real rate functions.

* `sfr t` — `ChemModel.sfr(t)`, the nearest-sample star-formation-rate lookup;
* `gas_inandout sfr_t mstars` — `(gas_inf, gas_out)`;
* `metals_inandout sfr_t z oxyz mstars` —
  `(metals_inf, metals_out, oxymass_inf, oxymass_out)`;
* `dust_inandout sfr_t dust_to_gas mstars` — `(mdust_inf, mdust_out)`;
* `graingrowth mg sfr_t z md` — `(mdust_gg, t_gg)`;
* `destroy_dust mg r_sn md` — `(mdust_des, t_des)`;
* `mass_integral t z sfr_lookup z_lookup oxy_lookup` —
  `(gas_ej, metals_stars, oxymass_stars, mdust_stars)`. -/
structure Physics where
  sfr : ℚ → ℚ
  gas_inandout : ℚ → ℚ → ℚ × ℚ
  metals_inandout : ℚ → ℚ → ℚ → ℚ → ℚ × ℚ × ℚ × ℚ
  dust_inandout : ℚ → ℚ → ℚ → ℚ × ℚ
  graingrowth : ℚ → ℚ → ℚ → ℚ → ℚ × ℚ
  destroy_dust : ℚ → ℚ → ℚ → ℚ × ℚ
  mass_integral : ℚ → ℚ → List (ℚ × ℚ) → List (ℚ × ℚ) → List (ℚ × ℚ) → ℚ × ℚ × ℚ × ℚ

/-- One row of `all_results` appended per step by `gas_metal_dust_mass`
(the tuple at evolve.py:299-301), with the column names that
`BulkEvolve.evolve_all` gives them (evolve.py:411-424). -/
structure ResultRecord where
  time : ℚ
  mgas : ℚ
  mstars : ℚ
  metalmass : ℚ
  metallicity : ℚ
  dustmass : ℚ
  dust_metals_ratio : ℚ
  sfr : ℚ
  dust_all : ℚ
  dust_stars : ℚ
  dust_ism : ℚ
  time_destroy : ℚ
  time_gg : ℚ
  oxygenmass : ℚ
deriving DecidableEq, Inhabited

/-- The mutable loop variables of `gas_metal_dust_mass` (evolve.py:155-175).
`metals_pre` and `oxymass_pre` are initialised to 0 and never reassigned in the
source, but they do appear in the metal/oxygen balance, so they are kept. -/
structure LoopState where
  mg : ℚ
  mstars : ℚ
  md : ℚ
  md_all : ℚ
  md_stars : ℚ
  md_gg : ℚ
  metals : ℚ
  oxymass : ℚ
  metals_pre : ℚ
  oxymass_pre : ℚ
  prev_t : ℚ
  z : List (ℚ × ℚ)
  oxyz : List (ℚ × ℚ)
  sfr_list : List (ℚ × ℚ)
  all_results : List ResultRecord
deriving DecidableEq

/-- The initialisation block of `gas_metal_dust_mass` (evolve.py:155-175):
all reservoirs empty except the configured initial gas mass, `prev_t = 1e-3`. -/
def initState (gasmass_init : ℚ) : LoopState :=
  { mg := gasmass_init
    mstars := 0
    md := 0
    md_all := 0
    md_stars := 0
    md_gg := 0
    metals := 0
    oxymass := 0
    metals_pre := 0
    oxymass_pre := 0
    prev_t := 1/1000
    z := []
    oxyz := []
    sfr_list := []
    all_results := [] }

/-- One iteration of the TIME integral loop of `gas_metal_dust_mass`
(evolve.py:182-301), for grid time `t` with supernova rate `r_sn = sn_rate[item]`.
Returns the updated state and `true` exactly when the `mg <= 0` branch
(evolve.py:283-286) executed `break`.  In the break branch only the variables
already assigned before the check (`z`, `oxyz`, `sfr_list`, `prev_t`, `mstars`,
`mg`) have changed and no record is appended; otherwise the remaining
reservoirs are advanced and one `ResultRecord` is appended. -/
def gmdm_step (P : Physics) (r_sn t : ℚ) (s : LoopState) : LoopState × Bool :=
  let metallicity := s.metals / s.mg
  let oxy_metallicity := s.oxymass / s.mg
  let z2 := s.z ++ [(t, metallicity)]
  let oxyz2 := s.oxyz ++ [(t, oxy_metallicity)]
  let sfr_list2 := s.sfr_list ++ [(t, P.sfr t)]
  let gas_ast := P.sfr t
  let gio := P.gas_inandout (P.sfr t) s.mstars
  let metals_ast := astration s.metals s.mg (P.sfr t)
  let oxymass_ast := astration s.oxymass s.mg (P.sfr t)
  let mio := P.metals_inandout (P.sfr t) metallicity oxy_metallicity s.mstars
  let dio := P.dust_inandout (P.sfr t) (s.md / s.mg) s.mstars
  let mdust_ast := astration s.md s.mg (P.sfr t)
  let gg := P.graingrowth s.mg (P.sfr t) metallicity s.md
  let des := P.destroy_dust s.mg r_sn s.md
  let ej := P.mass_integral t metallicity sfr_list2 z2 oxyz2
  let dmstars := P.sfr t - ej.1
  let dmg := -gas_ast + ej.1 + gio.1 - gio.2
  let dmetals := -metals_ast + ej.2.1 + s.metals_pre + mio.1 - mio.2.1
  let doxymass := -oxymass_ast + ej.2.2.1 + s.oxymass_pre + mio.2.2.1 - mio.2.2.2
  let ddust := -mdust_ast + ej.2.2.2 + dio.1 - dio.2 + gg.1 - des.1
  let dust_source_all := ej.2.2.2 + gg.1
  let dt := t - s.prev_t
  let mstars2 := s.mstars + dmstars * dt
  let mg2 := s.mg + dmg * dt
  if mg2 ≤ 0 then
    ({ s with
        mstars := mstars2
        mg := mg2
        prev_t := t
        z := z2
        oxyz := oxyz2
        sfr_list := sfr_list2 }, true)
  else
    let metals2 := s.metals + dmetals * dt
    let oxymass2 := s.oxymass + doxymass * dt
    let md2 := s.md + ddust * dt
    let md_all2 := s.md_all + dust_source_all * dt
    let md_gg2 := s.md_gg + gg.1 * dt
    let md_stars2 := s.md_stars + ej.2.2.2 * dt
    let dust_to_metals := if mg2 ≤ 0 ∨ metals2 ≤ 0 then 0 else md2 / metals2
    let row : ResultRecord :=
      { time := t
        mgas := mg2
        mstars := mstars2
        metalmass := metals2
        metallicity := metallicity
        dustmass := md2
        dust_metals_ratio := dust_to_metals
        sfr := P.sfr t * (1/1000000000)
        dust_all := md_all2
        dust_stars := md_stars2
        dust_ism := md_gg2
        time_destroy := des.2
        time_gg := gg.2
        oxygenmass := oxymass2 }
    ({ mg := mg2
       mstars := mstars2
       md := md2
       md_all := md_all2
       md_stars := md_stars2
       md_gg := md_gg2
       metals := metals2
       oxymass := oxymass2
       metals_pre := s.metals_pre
       oxymass_pre := s.oxymass_pre
       prev_t := t
       z := z2
       oxyz := oxyz2
       sfr_list := sfr_list2
       all_results := s.all_results ++ [row] }, false)

/-- The full `for item, t in enumerate(time)` loop of `gas_metal_dust_mass`
(evolve.py:182-301) over the list of `(t, sn_rate[item])` pairs, threading the
state; the returned flag is `true` exactly when the loop ended through the
`break` at evolve.py:286. -/
def gmdm_run (P : Physics) : List (ℚ × ℚ) → LoopState → LoopState × Bool
  | [], s => (s, false)
  | (t, r) :: rest, s =>
    match gmdm_step P r t s with
    | (s1, true) => (s1, true)
    | (s1, false) => gmdm_run P rest s1

/-- The loop-entry states of `gmdm_run`: the state at the top of every executed
iteration of the loop (evolve.py:182), at which the divisions
`metallicity = metals/mg`, `oxy_metallicity = oxymass/mg` (evolve.py:184-185)
and `md/mg` (evolve.py:245) are performed.  The entry state of an iteration
that breaks is included. -/
def gmdm_entryStates (P : Physics) : List (ℚ × ℚ) → LoopState → List LoopState
  | [], _ => []
  | (t, r) :: rest, s =>
    match gmdm_step P r t s with
    | (_, true) => [s]
    | (s1, false) => s :: gmdm_entryStates P rest s1

/-- The truncated time grid `time = self.sfh[:,0]; time = time[time < self.tend]`
used both in `gas_metal_dust_mass` (evolve.py:177-178) and in
`supernova_rate` (evolve.py:314-315). -/
def timeGrid (sfh_times : List ℚ) (tend : ℚ) : List ℚ :=
  sfh_times.filter (fun t => t < tend)

/-- `ChemModel.gas_metal_dust_mass` (evolve.py:149-303): run the loop over the
truncated grid paired with the precomputed supernova-rate series and return
`all_results` — and only `all_results`; the break/completed distinction is not
part of the return value (evolve.py:303). -/
def gas_metal_dust_mass (P : Physics) (gasmass_init tend : ℚ)
    (sfh_times : List ℚ) (sn_rate : List ℚ) : List ResultRecord :=
  (gmdm_run P ((timeGrid sfh_times tend).zip sn_rate) (initState gasmass_init)).1.all_results

/-- The per-step mass-balance property of spec 4.5: from loop-entry state `s`
at grid time `t`, each reservoir is advanced by exactly (sources − sinks) × dt,
with `dt = t − prev_t` and the sources/sinks enumerated in spec 4.2-4.3 — for
gas `−astration + ejected + inflow − outflow` (the gas astration term is the
full star-formation rate, evolve.py:200), for stars `sfr − ejected`, for
metals and oxygen the astration/ejecta/inflow/outflow terms plus the constant
`metals_pre`/`oxymass_pre` contributions, and for dust additionally grain
growth minus destruction. -/
def StepBalance (P : Physics) (r_sn t : ℚ) (s : LoopState) : Prop :=
  let s2 := (gmdm_step P r_sn t s).1
  let dt := t - s.prev_t
  let sfr_t := P.sfr t
  let metallicity := s.metals / s.mg
  let oxy_metallicity := s.oxymass / s.mg
  let gio := P.gas_inandout sfr_t s.mstars
  let mio := P.metals_inandout sfr_t metallicity oxy_metallicity s.mstars
  let dio := P.dust_inandout sfr_t (s.md / s.mg) s.mstars
  let gg := P.graingrowth s.mg sfr_t metallicity s.md
  let des := P.destroy_dust s.mg r_sn s.md
  let ej := P.mass_integral t metallicity (s.sfr_list ++ [(t, sfr_t)])
      (s.z ++ [(t, metallicity)]) (s.oxyz ++ [(t, oxy_metallicity)])
  s2.mg = s.mg + (-sfr_t + ej.1 + gio.1 - gio.2) * dt ∧
  s2.mstars = s.mstars + (sfr_t - ej.1) * dt ∧
  s2.metals = s.metals
      + (-(astration s.metals s.mg sfr_t) + ej.2.1 + s.metals_pre + mio.1 - mio.2.1) * dt ∧
  s2.oxymass = s.oxymass
      + (-(astration s.oxymass s.mg sfr_t) + ej.2.2.1 + s.oxymass_pre
          + mio.2.2.1 - mio.2.2.2) * dt ∧
  s2.md = s.md
      + (-(astration s.md s.mg sfr_t) + ej.2.2.2 + dio.1 - dio.2 + gg.1 - des.1) * dt

/-- The `while m < 40.` mass loop of `ChemModel.supernova_rate`
(evolve.py:326-330), with a fuel argument for termination: one fuel unit per
iteration (5000 units are far more than the at most a few thousand iterations
the loop can take from any tabulated starting mass).  `imf m` stands for
`initial_mass_function(m, self.imf_type)` from the missing
`chemevol/functions.py`.  Returns the accumulated `sn_rate` together with the
final value of the step variable `dm` — crucially, in the source `dm` is NOT
local to this loop: it lives outside the `for t in time` loop
(evolve.py:311) and its final value is carried into the next grid time. -/
def sn_mass_loop (imf : ℚ → ℚ) : ℕ → ℚ → ℚ → ℚ → ℚ × ℚ
  | 0, _, dm, acc => (acc, dm)
  | fuel + 1, m, dm, acc =>
    if m < 40 then
      let dm2 := if 10 < m then (1 : ℚ)/2 else dm
      sn_mass_loop imf fuel (m + dm2) dm2 (acc + imf m * dm2)
    else (acc, dm)

/-- Fuel bound for `sn_mass_loop`; see its doc comment. -/
def snFuel : ℕ := 5000

/-- The starting mass of the mass loop (evolve.py:321-325): below `t = 0.049`
the minimum progenitor mass comes from the lifetime table
(`lookup_fn(t_lifetime,'lifetime_high_metals',t)[0]`, here the abstract
lookup `lk` since `chemevol/lookups.py` is not among the sources), else 9. -/
def snStartMass (lk : ℚ → ℚ) (t : ℚ) : ℚ :=
  if t < 49/1000 then lk t else 9

/-- The `for t in time` loop of `supernova_rate` (evolve.py:316-334),
threading the step variable `dm` from one grid time to the next exactly as the
source does (it is initialised to 0.01 once, before the loop). -/
def supernova_rate_aux (imf lk sfr : ℚ → ℚ) : List ℚ → ℚ → List ℚ
  | [], _ => []
  | t :: rest, dm =>
    let p := sn_mass_loop imf snFuel (snStartMass lk t) dm 0
    (sfr t * p.1) :: supernova_rate_aux imf lk sfr rest p.2

/-- `ChemModel.supernova_rate` (evolve.py:305-335): for each time of the
truncated grid, the Riemann sum of the IMF density from the minimum progenitor
mass to 40 Msun, times the star-formation rate at that time. -/
def supernova_rate (imf lk sfr : ℚ → ℚ) (sfh_times : List ℚ) (tend : ℚ) : List ℚ :=
  supernova_rate_aux imf lk sfr (timeGrid sfh_times tend) (1/100)

/-- The value of the step variable `dm` after processing a list of grid times,
starting from `dm`; used to characterise the entries of `supernova_rate`. -/
def snDmState (imf lk : ℚ → ℚ) : List ℚ → ℚ → ℚ
  | [], dm => dm
  | t :: rest, dm =>
    snDmState imf lk rest (sn_mass_loop imf snFuel (snStartMass lk t) dm 0).2

/-- Modelled from the spec: the supernova-rate series as spec 4.4 describes it,
"Riemann-sums the initial-mass-function density from that minimum mass to
40 solar masses (step 0.01 below 10 Msun, 0.5 above), multiplies by the
instantaneous star-formation rate" — i.e. the same mass loop but with the
step variable starting afresh at 0.01 at EVERY grid time. -/
def spec_supernova_rate (imf lk sfr : ℚ → ℚ) (sfh_times : List ℚ) (tend : ℚ) : List ℚ :=
  (timeGrid sfh_times tend).map
    (fun t => sfr t * (sn_mass_loop imf snFuel (snStartMass lk t) (1/100) 0).1)

/-- The mass sum the first grid time computes (starting mass 9, fresh step
0.01): step 0.01 up to and including mass 10, then 0.5. -/
def sn_rule_sum (imf : ℚ → ℚ) : ℚ :=
  (sn_mass_loop imf snFuel 9 (1/100) 0).1

/-- The mass sum every later grid time computes (starting mass 9, step stuck
at 0.5 since the first grid time drove the shared `dm` past mass 10). -/
def sn_half_sum (imf : ℚ → ℚ) : ℚ :=
  (sn_mass_loop imf snFuel 9 (1/2) 0).1

/-- Integer-scaled twin of `sn_mass_loop` at the constant IMF density 1:
masses and mass steps in units of 0.01 solar masses (so the bounds 40 and 10
become 4000 and 1000, and the steps 0.01 and 0.5 become 1 and 50).  Used only
to evaluate the rational loop on concrete inputs, via
`sn_mass_loop_one_eq_scaled`; integer arithmetic reduces inside the kernel
where rational arithmetic does not. -/
def sn_mass_loop_scaled : ℕ → ℤ → ℤ → ℤ → ℤ × ℤ
  | 0, _, dm, acc => (acc, dm)
  | fuel + 1, m, dm, acc =>
    if m < 4000 then
      let dm2 := if 1000 < m then (50 : ℤ) else dm
      sn_mass_loop_scaled fuel (m + dm2) dm2 (acc + dm2)
    else (acc, dm)

/-- Stellar IMF variants selectable in `ChemModel.__init__` (evolve.py:83-90):
`imf_chab`, `imf_topchab`, `imf_kroup`, `imf_salp` from the missing
`chemevol/functions.py`, here only as tags. -/
inductive ImfFn
  | chab
  | topchab
  | kroup
  | salp
deriving DecidableEq

/-- The `choice_dust` dictionary built in `ChemModel.__init__`
(evolve.py:96-119). -/
structure DustChoice where
  sn : Bool
  lims : Bool
  gg : Bool
deriving DecidableEq

/-- The accepted spellings for `IMF_fn` (evolve.py:83-90). -/
def imf_aliases : List String :=
  ["Chab", "chab", "c", "TopChab", "topchab", "tc",
   "Kroup", "kroup", "k", "Salp", "salp", "s"]

/-- The accepted spellings for `dust_source` (evolve.py:96-119). -/
def dust_source_aliases : List String :=
  ["ALL", "all", "All", "SN", "Sn", "sn", "LIMS", "Lims", "lims",
   "SN+LIMS", "sn+lims", "LIMS+SN", "lims+sn"]

/-- The IMF dispatch of `ChemModel.__init__` (evolve.py:82-90): an
`if`/`elif` chain with NO final `else`, so an unrecognized spelling leaves
`self.imf` unset — modelled as `none`. -/
def select_imf (s : String) : Option ImfFn :=
  if s ∈ ["Chab", "chab", "c"] then some ImfFn.chab
  else if s ∈ ["TopChab", "topchab", "tc"] then some ImfFn.topchab
  else if s ∈ ["Kroup", "kroup", "k"] then some ImfFn.kroup
  else if s ∈ ["Salp", "salp", "s"] then some ImfFn.salp
  else none

/-- The dust-source dispatch of `ChemModel.__init__` (evolve.py:96-122): the
final `else` prints an error and calls `exit()`, killing the whole process —
modelled as `none`. -/
def select_dust_source (s : String) : Option DustChoice :=
  if s ∈ ["ALL", "all", "All"] then some { sn := true, lims := true, gg := true }
  else if s ∈ ["SN", "Sn", "sn"] then some { sn := true, lims := false, gg := false }
  else if s ∈ ["LIMS", "Lims", "lims"] then some { sn := false, lims := true, gg := false }
  else if s ∈ ["SN+LIMS", "sn+lims", "LIMS+SN", "lims+sn"] then
    some { sn := true, lims := true, gg := false }
  else none

/-- The part of the `ChemModel` state fixed by the two string dispatches of
`__init__`. -/
structure ChemModelChoices where
  imf : Option ImfFn
  choice_dust : DustChoice
deriving DecidableEq

/-- The selection part of `ChemModel.__init__` (evolve.py:82-122): the IMF
dispatch never fails (it silently leaves `imf = none` for unrecognized
spellings), the dust-source dispatch calls `exit()` for unrecognized
spellings (modelled as `none`, meaning the process died). -/
def chemModel_init (imf_str dust_str : String) : Option ChemModelChoices :=
  match select_dust_source dust_str with
  | none => none
  | some d => some { imf := select_imf imf_str, choice_dust := d }

/-- One entry of `BulkEvolve.inits`: the per-galaxy configuration as consumed
by `evolve_all` (evolve.py:404-409).  The string fields feed
`ChemModel.__init__`; the physical content of the run is carried by the
abstract `Physics` together with the IMF density and lifetime lookup used by
`supernova_rate`. -/
structure Galaxy where
  name : String
  imf_str : String
  dust_str : String
  phys : Physics
  imf_density : ℚ → ℚ
  lifetime_lk : ℚ → ℚ
  gasmass_init : ℚ
  tend : ℚ
  sfh_times : List ℚ

/-- The body of the `for item in self.inits` loop of `BulkEvolve.evolve_all`
(evolve.py:404-409): construct the `ChemModel` (which may `exit()`), then
`supernova_rate`, then `gas_metal_dust_mass`.  `none` means the process died
inside `ChemModel.__init__`. -/
def evolve_one (g : Galaxy) : Option (List ResultRecord) :=
  match chemModel_init g.imf_str g.dust_str with
  | none => none
  | some _ =>
    some (gas_metal_dust_mass g.phys g.gasmass_init g.tend g.sfh_times
      (supernova_rate g.imf_density g.lifetime_lk g.phys.sfr g.sfh_times g.tend))

/-- `BulkEvolve.evolve_all` (evolve.py:388-435): the loop over `self.inits`
has no exception handling, and a failing `ChemModel.__init__` calls `exit()`,
so a failure at any entry kills the process: no later galaxy is processed and
the in-memory `galaxies` list is lost — modelled as `none` for the whole
batch. -/
def evolve_all : List Galaxy → Option (List (List ResultRecord))
  | [] => some []
  | g :: rest =>
    match evolve_one g with
    | none => none
    | some res => (evolve_all rest).map (fun l => res :: l)

/-- A configuration with inflows, outflows, grain growth, destruction and
stellar ejecta all switched off — each rate function returns 0, as spec 4.2
prescribes for switched-off channels — and a constant star-formation rate
`sfr0`. -/
def quietPhysics (sfr0 : ℚ) : Physics :=
  { sfr := fun _ => sfr0
    gas_inandout := fun _ _ => (0, 0)
    metals_inandout := fun _ _ _ _ => (0, 0, 0, 0)
    dust_inandout := fun _ _ _ => (0, 0)
    graingrowth := fun _ _ _ _ => (0, 0)
    destroy_dust := fun _ _ _ => (0, 0)
    mass_integral := fun _ _ _ _ _ => (0, 0, 0, 0) }

/-- A configuration in which dying stars eject 1 Msun/Gyr of metals and
1 Msun/Gyr of dust and no gas, dust destruction is on with the spec 4.2 rate
"dust mass x supernova rate x configured destroyed-mass-per-event x
effective-rate correction factor, divided by total gas mass" (destroyed mass
x correction folded to 1000), and star formation, inflows, outflows and grain
growth are off. -/
def dustyPhysics : Physics :=
  { sfr := fun _ => 0
    gas_inandout := fun _ _ => (0, 0)
    metals_inandout := fun _ _ _ _ => (0, 0, 0, 0)
    dust_inandout := fun _ _ _ => (0, 0)
    graingrowth := fun _ _ _ _ => (0, 0)
    destroy_dust := fun mg r_sn md => (md * r_sn * 1000 / mg, mg / (1000 * r_sn))
    mass_integral := fun _ _ _ _ _ => (0, 1, 0, 1) }

/-- A batch entry with an unrecognized `dust_source` spelling: its
`ChemModel.__init__` reaches the `exit()` at evolve.py:122. -/
def badGalaxy : Galaxy :=
  { name := "bad"
    imf_str := "Chab"
    dust_str := "junk"
    phys := quietPhysics 0
    imf_density := fun _ => 1
    lifetime_lk := fun _ => 9
    gasmass_init := 1
    tend := 1
    sfh_times := [] }

/-- A perfectly valid batch entry (empty star-formation history, so its run
is trivially fine). -/
def goodGalaxy : Galaxy :=
  { name := "good"
    imf_str := "Chab"
    dust_str := "ALL"
    phys := quietPhysics 0
    imf_density := fun _ => 1
    lifetime_lk := fun _ => 9
    gasmass_init := 1
    tend := 1
    sfh_times := [] }

/-- What `supernova_rate` actually produces on a grid whose times are all at
or past 0.049 Gyr: at the first grid time the fresh step variable walks with
step 0.01 up to mass 10 and 0.5 above (`sn_rule_sum`); every later grid time
inherits the step variable stuck at 0.5 and sums with step 0.5 over the whole
mass range (`sn_half_sum`). -/
def sn_expected (imf sfr : ℚ → ℚ) : List ℚ → List ℚ
  | [] => []
  | t0 :: rest => sfr t0 * sn_rule_sum imf :: rest.map (fun t => sfr t * sn_half_sum imf)


/-! ## Helper lemmas about a single loop iteration -/

/-- If the iteration broke, the updated gas mass is non-positive
(the `break` fires exactly on `mg <= 0`, evolve.py:283). -/
theorem gmdm_step_true_mg (P : Physics) (r_sn t : ℚ) (s : LoopState)
    (h : (gmdm_step P r_sn t s).2 = true) : (gmdm_step P r_sn t s).1.mg ≤ 0 := by
  simp only [gmdm_step] at h ⊢
  split at h
  next hc =>
    rw [if_pos hc]
    exact hc
  next hc =>
    simp at h

/-- If the iteration did not break, the updated gas mass is strictly positive. -/
theorem gmdm_step_false_mg (P : Physics) (r_sn t : ℚ) (s : LoopState)
    (h : (gmdm_step P r_sn t s).2 = false) : 0 < (gmdm_step P r_sn t s).1.mg := by
  simp only [gmdm_step] at h ⊢
  split at h
  next hc =>
    simp at h
  next hc =>
    rw [if_neg hc]
    exact lt_of_not_le hc

/-- A breaking iteration appends no record. -/
theorem gmdm_step_true_results (P : Physics) (r_sn t : ℚ) (s : LoopState)
    (h : (gmdm_step P r_sn t s).2 = true) :
    (gmdm_step P r_sn t s).1.all_results = s.all_results := by
  simp only [gmdm_step] at h ⊢
  split at h
  next hc =>
    rw [if_pos hc]
  next hc =>
    simp at h

/-- A non-breaking iteration appends exactly one record, whose time is the
grid time and whose mass fields are the updated reservoir values; its
dust-to-metal ratio is the clamped quotient written at evolve.py:295-298. -/
theorem gmdm_step_false_results (P : Physics) (r_sn t : ℚ) (s : LoopState)
    (h : (gmdm_step P r_sn t s).2 = false) :
    ∃ row : ResultRecord,
      (gmdm_step P r_sn t s).1.all_results = s.all_results ++ [row] ∧
      row.time = t ∧
      row.mgas = (gmdm_step P r_sn t s).1.mg ∧
      row.metalmass = (gmdm_step P r_sn t s).1.metals ∧
      row.dustmass = (gmdm_step P r_sn t s).1.md ∧
      row.dust_metals_ratio =
        (if row.mgas ≤ 0 ∨ row.metalmass ≤ 0 then 0 else row.dustmass / row.metalmass) := by
  simp only [gmdm_step] at h ⊢
  split at h
  next hc =>
    simp at h
  next hc =>
    rw [if_neg hc]
    refine ⟨_, rfl, rfl, rfl, rfl, rfl, rfl⟩

/-! ## Helper lemmas about the whole loop -/

/-- Shape of a full run: for some `k` bounded by the grid length, the time
column of the accumulated records extends the initial one by the first `k`
grid times; the run appended exactly `k` records; `k` is strictly below the
grid length when the loop broke and equal to it when the grid was
exhausted. -/
theorem gmdm_run_shape (P : Physics) (pairs : List (ℚ × ℚ)) :
    ∀ s : LoopState, ∃ k, k ≤ pairs.length ∧
      ((gmdm_run P pairs s).1.all_results).map ResultRecord.time
        = s.all_results.map ResultRecord.time ++ ((pairs.map Prod.fst).take k) ∧
      (gmdm_run P pairs s).1.all_results.length = s.all_results.length + k ∧
      ((gmdm_run P pairs s).2 = true → k < pairs.length) ∧
      ((gmdm_run P pairs s).2 = false → k = pairs.length) := by
  induction pairs with
  | nil =>
    intro s
    exact ⟨0, by simp [gmdm_run]⟩
  | cons p rest ih =>
    obtain ⟨t, r⟩ := p
    intro s
    rcases hb : gmdm_step P r t s with ⟨s1, b⟩
    cases b
    · obtain ⟨k, hk, hmap, hlen, hbt, hbf⟩ := ih s1
      have hres := gmdm_step_false_results P r t s (by rw [hb])
      rw [hb] at hres
      obtain ⟨row, hrow, hrt, -, -, -, -⟩ := hres
      refine ⟨k + 1, ?_, ?_, ?_, ?_, ?_⟩
      · simpa using Nat.succ_le_succ hk
      · simp only [gmdm_run, hb, List.map_cons, List.take_succ_cons]
        rw [hmap, hrow]
        simp [hrt]
      · simp only [gmdm_run, hb]
        rw [hlen, hrow]
        simp
        omega
      · intro hbroke
        simp only [gmdm_run, hb] at hbroke
        have := hbt hbroke
        simpa using Nat.succ_lt_succ this
      · intro hdone
        simp only [gmdm_run, hb] at hdone
        have := hbf hdone
        simp [this]
    · have hres := gmdm_step_true_results P r t s (by rw [hb])
      rw [hb] at hres
      refine ⟨0, by simp, ?_, ?_, ?_, ?_⟩
      · simp only [gmdm_run, hb]
        simpa using congrArg (List.map ResultRecord.time) hres
      · simp only [gmdm_run, hb]
        rw [show s1.all_results = s.all_results from hres]
        simp
      · intro _
        simp
      · intro hdone
        simp only [gmdm_run, hb] at hdone
        simp at hdone

/-- Every record present after a run satisfies: strictly positive recorded gas
mass, and the clamped dust-to-metal ratio — provided the records already
present before the run did. -/
theorem gmdm_run_records (P : Physics) (pairs : List (ℚ × ℚ)) :
    ∀ s : LoopState,
      (∀ rec0 ∈ s.all_results,
        0 < rec0.mgas ∧
        rec0.dust_metals_ratio =
          (if rec0.mgas ≤ 0 ∨ rec0.metalmass ≤ 0 then 0
            else rec0.dustmass / rec0.metalmass)) →
      ∀ rec0 ∈ (gmdm_run P pairs s).1.all_results,
        0 < rec0.mgas ∧
        rec0.dust_metals_ratio =
          (if rec0.mgas ≤ 0 ∨ rec0.metalmass ≤ 0 then 0
            else rec0.dustmass / rec0.metalmass) := by
  induction pairs with
  | nil =>
    intro s hs
    simpa [gmdm_run] using hs
  | cons p rest ih =>
    obtain ⟨t, r⟩ := p
    intro s hs
    rcases hb : gmdm_step P r t s with ⟨s1, b⟩
    cases b
    · have hres := gmdm_step_false_results P r t s (by rw [hb])
      have hmg := gmdm_step_false_mg P r t s (by rw [hb])
      rw [hb] at hres hmg
      obtain ⟨row, hrow, -, hmgas, hmet, hdust, hratio⟩ := hres
      simp only [gmdm_run, hb]
      refine ih s1 ?_
      intro rec0 hrec
      rw [hrow] at hrec
      rcases List.mem_append.mp hrec with hold | hnew
      · exact hs rec0 hold
      · have heq : rec0 = row := by simpa using hnew
        subst heq
        exact ⟨by rw [hmgas]; exact hmg, hratio⟩
    · have hres := gmdm_step_true_results P r t s (by rw [hb])
      rw [hb] at hres
      simp only [gmdm_run, hb]
      intro rec0 hrec
      rw [show s1.all_results = s.all_results from hres] at hrec
      exact hs rec0 hrec

/-- If the run broke, the final state's gas mass is the non-positive value
that triggered the break. -/
theorem gmdm_run_true_mg (P : Physics) (pairs : List (ℚ × ℚ)) :
    ∀ s : LoopState, (gmdm_run P pairs s).2 = true → (gmdm_run P pairs s).1.mg ≤ 0 := by
  induction pairs with
  | nil =>
    intro s h
    simp [gmdm_run] at h
  | cons p rest ih =>
    obtain ⟨t, r⟩ := p
    intro s h
    rcases hb : gmdm_step P r t s with ⟨s1, b⟩
    cases b
    · simp only [gmdm_run, hb] at h ⊢
      exact ih s1 h
    · have hmg := gmdm_step_true_mg P r t s (by rw [hb])
      rw [hb] at hmg
      simp only [gmdm_run, hb]
      exact hmg

/-- The gas mass is strictly positive at the top of every executed iteration,
provided it was strictly positive on entry to the loop. -/
theorem gmdm_entryStates_mg_pos (P : Physics) (pairs : List (ℚ × ℚ)) :
    ∀ s : LoopState, 0 < s.mg →
      ∀ u ∈ gmdm_entryStates P pairs s, 0 < u.mg := by
  induction pairs with
  | nil =>
    intro s _ u hu
    simp [gmdm_entryStates] at hu
  | cons p rest ih =>
    obtain ⟨t, r⟩ := p
    intro s hs u hu
    rcases hb : gmdm_step P r t s with ⟨s1, b⟩
    cases b
    · have hmg := gmdm_step_false_mg P r t s (by rw [hb])
      rw [hb] at hmg
      simp only [gmdm_entryStates, hb] at hu
      rcases List.mem_cons.mp hu with h1 | h2
      · subst h1
        exact hs
      · exact ih s1 hmg u h2
    · simp only [gmdm_entryStates, hb] at hu
      have : u = s := by simpa using hu
      subst this
      exact hs

/-- The first components of a zipped list form a sublist of the first list. -/
theorem zip_map_fst_sub (l1 : List ℚ) :
    ∀ l2 : List ℚ, ((l1.zip l2).map Prod.fst).Sublist l1 := by
  induction l1 with
  | nil =>
    intro l2
    simp
  | cons a l1 ih =>
    intro l2
    cases l2 with
    | nil => simp
    | cons b l2 =>
      simpa using (ih l2).cons_cons a

/-! ## Helper lemmas about the supernova-rate mass loop -/

/-- The trace of the step variable `dm` does not depend on the IMF density or
on the accumulator: the loop's control flow only reads `m` and `dm`. -/
theorem sn_mass_loop_snd_ext (f g : ℚ → ℚ) (n : ℕ) :
    ∀ m dm acc acc' : ℚ,
      (sn_mass_loop f n m dm acc).2 = (sn_mass_loop g n m dm acc').2 := by
  induction n with
  | zero =>
    intro m dm acc acc'
    rfl
  | succ n ih =>
    intro m dm acc acc'
    by_cases h : m < 40
    · simp only [sn_mass_loop, if_pos h]
      exact ih _ _ _ _
    · simp only [sn_mass_loop, if_neg h]

/-- Correspondence between the rational mass loop at the constant IMF density 1
and its integer-scaled twin (all quantities in units of 0.01). -/
theorem sn_mass_loop_one_eq_scaled (n : ℕ) :
    ∀ a b c : ℤ,
      sn_mass_loop (fun _ => 1) n ((a : ℚ)/100) ((b : ℚ)/100) ((c : ℚ)/100)
        = (((sn_mass_loop_scaled n a b c).1 : ℚ)/100,
           ((sn_mass_loop_scaled n a b c).2 : ℚ)/100) := by
  induction n with
  | zero =>
    intro a b c
    rfl
  | succ n ih =>
    intro a b c
    have h100 : (0 : ℚ) < 100 := by norm_num
    by_cases h : a < 4000
    · have hq : (a : ℚ)/100 < 40 := by
        rw [div_lt_iff₀ h100]
        exact_mod_cast h
      by_cases h10 : 1000 < a
      · have hq10 : (10 : ℚ) < (a : ℚ)/100 := by
          rw [lt_div_iff₀ h100]
          exact_mod_cast h10
        simp only [sn_mass_loop, sn_mass_loop_scaled, if_pos h, if_pos hq,
          if_pos h10, if_pos hq10]
        have e1 : (a : ℚ)/100 + 1/2 = ((a + 50 : ℤ) : ℚ)/100 := by
          push_cast
          ring
        have e2 : (c : ℚ)/100 + 1 * (1/2) = ((c + 50 : ℤ) : ℚ)/100 := by
          push_cast
          ring
        have e3 : (1 : ℚ)/2 = ((50 : ℤ) : ℚ)/100 := by norm_num
        rw [e1, e2, e3]
        exact ih (a + 50) 50 (c + 50)
      · have hq10 : ¬ (10 : ℚ) < (a : ℚ)/100 := by
          rw [lt_div_iff₀ h100]
          intro hcon
          exact h10 (by exact_mod_cast hcon)
        simp only [sn_mass_loop, sn_mass_loop_scaled, if_pos h, if_pos hq,
          if_neg h10, if_neg hq10]
        have e1 : (a : ℚ)/100 + (b : ℚ)/100 = ((a + b : ℤ) : ℚ)/100 := by
          push_cast
          ring
        have e2 : (c : ℚ)/100 + 1 * ((b : ℚ)/100) = ((c + b : ℤ) : ℚ)/100 := by
          push_cast
          ring
        rw [e1, e2]
        exact ih (a + b) b (c + b)
    · have hq : ¬ (a : ℚ)/100 < 40 := by
        rw [div_lt_iff₀ h100]
        intro hcon
        exact h (by exact_mod_cast hcon)
      simp only [sn_mass_loop, sn_mass_loop_scaled, if_neg h, if_neg hq]

set_option maxRecDepth 40000 in
/-- Concrete value of the integer-scaled loop from mass 9 with step 0.01. -/
theorem sn_mass_loop_scaled_rule : sn_mass_loop_scaled snFuel 900 1 0 = (3101, 50) := by
  decide

set_option maxRecDepth 40000 in
/-- Concrete value of the integer-scaled loop from mass 9 with step 0.5. -/
theorem sn_mass_loop_scaled_half : sn_mass_loop_scaled snFuel 900 50 0 = (3100, 50) := by
  decide

/-- At the constant IMF density 1, the first grid time's mass sum (fresh step
0.01 from mass 9): 101 steps of 0.01 up to and including mass 10, then 60
steps of 0.5. -/
theorem sn_rule_sum_one : sn_rule_sum (fun _ => 1) = 3101/100 := by
  unfold sn_rule_sum
  have h9 : (9 : ℚ) = ((900 : ℤ) : ℚ)/100 := by norm_num
  have h1 : (1 : ℚ)/100 = ((1 : ℤ) : ℚ)/100 := by norm_num
  have h0 : (0 : ℚ) = ((0 : ℤ) : ℚ)/100 := by norm_num
  rw [h9, h1, h0, sn_mass_loop_one_eq_scaled, sn_mass_loop_scaled_rule]
  norm_num

/-- At the constant IMF density 1, the mass sum of a grid time whose step
variable is stuck at 0.5: 62 steps of 0.5 from mass 9 to mass 39.5. -/
theorem sn_half_sum_one : sn_half_sum (fun _ => 1) = 31 := by
  unfold sn_half_sum
  have h9 : (9 : ℚ) = ((900 : ℤ) : ℚ)/100 := by norm_num
  have h12 : (1 : ℚ)/2 = ((50 : ℤ) : ℚ)/100 := by norm_num
  have h0 : (0 : ℚ) = ((0 : ℤ) : ℚ)/100 := by norm_num
  rw [h9, h12, h0, sn_mass_loop_one_eq_scaled, sn_mass_loop_scaled_half]
  norm_num

/-- For any IMF density, the mass loop started at mass 9 with a fresh step
0.01 leaves the shared step variable at 0.5. -/
theorem sn_loop_rule_snd (imf : ℚ → ℚ) :
    (sn_mass_loop imf snFuel 9 (1/100) 0).2 = 1/2 := by
  rw [sn_mass_loop_snd_ext imf (fun _ => 1) snFuel 9 (1/100) 0 0]
  have h9 : (9 : ℚ) = ((900 : ℤ) : ℚ)/100 := by norm_num
  have h1 : (1 : ℚ)/100 = ((1 : ℤ) : ℚ)/100 := by norm_num
  have h0 : (0 : ℚ) = ((0 : ℤ) : ℚ)/100 := by norm_num
  rw [h9, h1, h0, sn_mass_loop_one_eq_scaled, sn_mass_loop_scaled_rule]
  norm_num

/-- For any IMF density, the mass loop started at mass 9 with step 0.5 leaves
the shared step variable at 0.5. -/
theorem sn_loop_half_snd (imf : ℚ → ℚ) :
    (sn_mass_loop imf snFuel 9 (1/2) 0).2 = 1/2 := by
  rw [sn_mass_loop_snd_ext imf (fun _ => 1) snFuel 9 (1/2) 0 0]
  have h9 : (9 : ℚ) = ((900 : ℤ) : ℚ)/100 := by norm_num
  have h12 : (1 : ℚ)/2 = ((50 : ℤ) : ℚ)/100 := by norm_num
  have h0 : (0 : ℚ) = ((0 : ℤ) : ℚ)/100 := by norm_num
  rw [h9, h12, h0, sn_mass_loop_one_eq_scaled, sn_mass_loop_scaled_half]

/-- Entry-wise characterisation of the supernova-rate series: the `i`-th entry
exists iff the `i`-th grid time exists, and equals the star-formation rate at
that grid time times the mass sum computed from the step variable as left by
the previous grid times. -/
theorem supernova_rate_aux_get (imf lk sfr : ℚ → ℚ) :
    ∀ (l : List ℚ) (dm : ℚ) (i : ℕ),
      (supernova_rate_aux imf lk sfr l dm).get? i
        = (l.get? i).map (fun t =>
            sfr t * (sn_mass_loop imf snFuel (snStartMass lk t)
              (snDmState imf lk (l.take i) dm) 0).1) := by
  intro l
  induction l with
  | nil =>
    intro dm i
    simp [supernova_rate_aux]
  | cons t rest ih =>
    intro dm i
    cases i with
    | zero =>
      simp [supernova_rate_aux, snDmState]
    | succ i =>
      simp only [supernova_rate_aux, List.get?_cons_succ, List.take_succ_cons,
        snDmState]
      exact ih _ i

/-- Once the shared step variable `dm` is stuck at 0.5, every remaining grid
time at or past 0.049 Gyr computes the same sum `sn_half_sum`. -/
theorem supernova_rate_aux_stuck (imf lk sfr : ℚ → ℚ) :
    ∀ l : List ℚ, (∀ t ∈ l, 49/1000 ≤ t) →
      supernova_rate_aux imf lk sfr l (1/2)
        = l.map (fun t => sfr t * sn_half_sum imf) := by
  intro l
  induction l with
  | nil =>
    intro _
    rfl
  | cons t rest ih =>
    intro h
    have ht : ¬ t < 49/1000 := not_lt.mpr (h t (List.mem_cons_self t rest))
    simp only [supernova_rate_aux, snStartMass, if_neg ht, List.map_cons]
    rw [sn_loop_half_snd imf]
    rw [ih (fun u hu => h u (List.mem_cons_of_mem t hu))]
    rfl

/-! ## Claim C1 -/

/-- C1: for every configuration and every step of the integration loop that
runs to completion (does not break), each reservoir is advanced by exactly
`new_mass = old_mass + (sources − sinks) × dt`, with `dt` the elapsed time
since the previous grid point and the sources/sinks the astration,
ejected-mass, inflow, outflow, grain-growth and destruction terms of that
reservoir's balance equation (for gas:
`new_gas = old_gas + (−astration + ejected_gas + inflow − outflow)·dt`). -/
theorem gmdm_step_mass_balance (P : Physics) (r_sn t : ℚ) (s : LoopState)
    (h : (gmdm_step P r_sn t s).2 = false) : StepBalance P r_sn t s := by
  unfold StepBalance
  simp only [gmdm_step] at h ⊢
  split at h
  next hc =>
    simp at h
  next hc =>
    rw [if_neg hc]
    exact ⟨rfl, rfl, rfl, rfl, rfl⟩

/-- Witness for C1: the balance equations at a concrete non-breaking step. -/
theorem gmdm_step_mass_balance_check :
    (gmdm_step (quietPhysics 0) 0 (2/1000) (initState 1)).2 = false ∧
    StepBalance (quietPhysics 0) 0 (2/1000) (initState 1) :=
  ⟨by with_unfolding_all decide,
   gmdm_step_mass_balance (quietPhysics 0) 0 (2/1000) (initState 1)
     (by with_unfolding_all decide)⟩

/-! ## Claim C9 -/

/-- C9: given a strictly positive initial gas mass, the gas mass is strictly
positive at the top of every executed iteration of the integration loop, so
each division by the gas mass performed there
(`metallicity = metals/mg`, `oxy_metallicity = oxymass/mg`, and the
dust-to-gas ratio `md/mg` passed to `dust_inandout`) divides by a strictly
positive value: the loop breaks before starting another iteration whenever
the updated gas mass is ≤ 0. -/
theorem gmdm_divisions_guarded (P : Physics) (pairs : List (ℚ × ℚ))
    (gasmass_init : ℚ) (h : 0 < gasmass_init) :
    ∀ u ∈ gmdm_entryStates P pairs (initState gasmass_init), 0 < u.mg :=
  gmdm_entryStates_mg_pos P pairs (initState gasmass_init) h

/-- Witness for C9: a concrete run (including its breaking iteration) whose
entry states all carry strictly positive gas mass. -/
theorem gmdm_divisions_guarded_check :
    0 < (1 : ℚ) ∧
    ∀ u ∈ gmdm_entryStates (quietPhysics 600) [(2/1000, 0), (3/1000, 0)]
        (initState 1), 0 < u.mg :=
  ⟨by norm_num,
   gmdm_divisions_guarded (quietPhysics 600) [(2/1000, 0), (3/1000, 0)] 1
     (by norm_num)⟩

/-! ## Claim C3 -/

/-- C3: if the loop breaks (gas driven to ≤ 0 before the grid is exhausted,
with the supernova-rate series as long as the truncated grid), then the
returned sequence is strictly shorter than the truncated grid, every recorded
gas mass is strictly positive (a non-positive gas mass is never recorded), and
the final loop state's gas mass is the non-positive value that triggered the
break — so the last record holds the last strictly positive gas mass
reached. -/
theorem gmdm_early_termination (P : Physics) (gasmass_init tend : ℚ)
    (sfh_times sn_rate : List ℚ)
    (hlen : sn_rate.length = (timeGrid sfh_times tend).length)
    (hbroke : (gmdm_run P ((timeGrid sfh_times tend).zip sn_rate)
      (initState gasmass_init)).2 = true) :
    (gas_metal_dust_mass P gasmass_init tend sfh_times sn_rate).length
        < (timeGrid sfh_times tend).length ∧
    (∀ r0 ∈ gas_metal_dust_mass P gasmass_init tend sfh_times sn_rate,
        0 < r0.mgas) ∧
    (gmdm_run P ((timeGrid sfh_times tend).zip sn_rate)
        (initState gasmass_init)).1.mg ≤ 0 := by
  obtain ⟨k, hk, hmap, hlen2, hbt, hbf⟩ :=
    gmdm_run_shape P ((timeGrid sfh_times tend).zip sn_rate) (initState gasmass_init)
  refine ⟨?_, ?_, ?_⟩
  · have hkp := hbt hbroke
    have hres : (gas_metal_dust_mass P gasmass_init tend sfh_times sn_rate).length = k := by
      simpa [gas_metal_dust_mass, initState] using hlen2
    rw [hres]
    calc k < ((timeGrid sfh_times tend).zip sn_rate).length := hkp
      _ = (timeGrid sfh_times tend).length := by
          rw [List.length_zip, hlen, min_self]
  · intro r0 hr
    exact (gmdm_run_records P ((timeGrid sfh_times tend).zip sn_rate)
      (initState gasmass_init) (by simp [initState]) r0 hr).1
  · exact gmdm_run_true_mg P ((timeGrid sfh_times tend).zip sn_rate)
      (initState gasmass_init) hbroke

/-- Witness for C3: a run with constant star-formation rate 600 and no other
channels, from initial gas mass 1 on the two-point grid {0.002, 0.003}: the
first step leaves gas 0.4 and is recorded, the second step drives the gas to
−0.2 and breaks, so exactly one of the two grid points is recorded. -/
theorem gmdm_early_termination_check :
    (gmdm_run (quietPhysics 600) ((timeGrid [2/1000, 3/1000] 1).zip [0, 0])
        (initState 1)).2 = true ∧
    ((gas_metal_dust_mass (quietPhysics 600) 1 1 [2/1000, 3/1000] [0, 0]).length
        < (timeGrid [2/1000, 3/1000] 1).length ∧
    (∀ r0 ∈ gas_metal_dust_mass (quietPhysics 600) 1 1 [2/1000, 3/1000] [0, 0],
        0 < r0.mgas) ∧
    (gmdm_run (quietPhysics 600) ((timeGrid [2/1000, 3/1000] 1).zip [0, 0])
        (initState 1)).1.mg ≤ 0) :=
  ⟨by with_unfolding_all decide,
   gmdm_early_termination (quietPhysics 600) 1 1 [2/1000, 3/1000] [0, 0]
     (by with_unfolding_all decide) (by with_unfolding_all decide)⟩

/-! ## Claim C5 -/

/-- C5: for strictly increasing SFH sample times, the time column of the
result sequence is strictly increasing and every entry is strictly below the
configured end time. -/
theorem gmdm_times_strictly_increasing (P : Physics) (gasmass_init tend : ℚ)
    (sfh_times sn_rate : List ℚ)
    (hsorted : sfh_times.Pairwise (· < ·)) :
    ((gas_metal_dust_mass P gasmass_init tend sfh_times sn_rate).map
        ResultRecord.time).Pairwise (· < ·) ∧
    ∀ x ∈ (gas_metal_dust_mass P gasmass_init tend sfh_times sn_rate).map
        ResultRecord.time, x < tend := by
  obtain ⟨k, hk, hmap, -, -, -⟩ :=
    gmdm_run_shape P ((timeGrid sfh_times tend).zip sn_rate) (initState gasmass_init)
  have hcol : (gas_metal_dust_mass P gasmass_init tend sfh_times sn_rate).map
      ResultRecord.time
      = ((((timeGrid sfh_times tend).zip sn_rate).map Prod.fst).take k) := by
    simpa [gas_metal_dust_mass, initState] using hmap
  have hsub1 : ((((timeGrid sfh_times tend).zip sn_rate).map Prod.fst).take k).Sublist
      (timeGrid sfh_times tend) :=
    (List.take_sublist _ _).trans (zip_map_fst_sub _ _)
  have hsub2 : ((((timeGrid sfh_times tend).zip sn_rate).map Prod.fst).take k).Sublist
      sfh_times :=
    hsub1.trans (List.filter_sublist _)
  constructor
  · rw [hcol]
    exact hsorted.sublist hsub2
  · intro x hx
    rw [hcol] at hx
    have hx2 : x ∈ timeGrid sfh_times tend := hsub1.subset hx
    have := (List.mem_filter.mp hx2).2
    simpa using this

/-- Witness for C5: the two-point grid run of the early-termination scenario,
with its strictly increasing SFH times. -/
theorem gmdm_times_strictly_increasing_check :
    ([(2 : ℚ)/1000, 3/1000].Pairwise (· < ·)) ∧
    (((gas_metal_dust_mass (quietPhysics 600) 1 1 [2/1000, 3/1000] [0, 0]).map
        ResultRecord.time).Pairwise (· < ·) ∧
    ∀ x ∈ (gas_metal_dust_mass (quietPhysics 600) 1 1 [2/1000, 3/1000] [0, 0]).map
        ResultRecord.time, x < 1) :=
  ⟨by norm_num,
   gmdm_times_strictly_increasing (quietPhysics 600) 1 1 [2/1000, 3/1000] [0, 0]
     (by norm_num)⟩

/-! ## Claim C7 -/

set_option maxRecDepth 40000 in
/-- C7 counterexample: `gas_metal_dust_mass` returns only the records array,
with no status flag.  Two concrete runs — one that exhausts its gas and breaks
at the second grid point, one that completes a one-point grid — return exactly
the same value, so no function of the returned result can distinguish the
"completed to end time" outcome from the "exhausted gas early" outcome. -/
theorem gmdm_no_flag_counterexample :
    gas_metal_dust_mass (quietPhysics 600) 1 1 [2/1000, 3/1000] [0, 0]
      = gas_metal_dust_mass (quietPhysics 600) 1 1 [2/1000] [0] ∧
    (gmdm_run (quietPhysics 600) ((timeGrid [2/1000, 3/1000] 1).zip [0, 0])
        (initState 1)).2 = true ∧
    (gmdm_run (quietPhysics 600) ((timeGrid [2/1000] 1).zip [0])
        (initState 1)).2 = false := by
  refine ⟨by with_unfolding_all rfl, ?_, ?_⟩ <;> with_unfolding_all decide

/-- C7 amended: no status flag is returned; the two termination paths are
distinguishable only given the truncated grid (which the caller can recompute
from the configuration): the run exhausted its gas early if and only if the
returned sequence is strictly shorter than the truncated grid. -/
theorem gmdm_termination_from_length (P : Physics) (gasmass_init tend : ℚ)
    (sfh_times sn_rate : List ℚ)
    (hlen : sn_rate.length = (timeGrid sfh_times tend).length) :
    (gmdm_run P ((timeGrid sfh_times tend).zip sn_rate)
        (initState gasmass_init)).2 = true
      ↔ (gas_metal_dust_mass P gasmass_init tend sfh_times sn_rate).length
          < (timeGrid sfh_times tend).length := by
  obtain ⟨k, hk, -, hlen2, hbt, hbf⟩ :=
    gmdm_run_shape P ((timeGrid sfh_times tend).zip sn_rate) (initState gasmass_init)
  have hplen : ((timeGrid sfh_times tend).zip sn_rate).length
      = (timeGrid sfh_times tend).length := by
    rw [List.length_zip, hlen, min_self]
  have hres : (gas_metal_dust_mass P gasmass_init tend sfh_times sn_rate).length = k := by
    simpa [gas_metal_dust_mass, initState] using hlen2
  constructor
  · intro hb
    rw [hres, ← hplen]
    exact hbt hb
  · intro hlt
    by_contra hnb
    have hfalse : (gmdm_run P ((timeGrid sfh_times tend).zip sn_rate)
        (initState gasmass_init)).2 = false := by
      cases hcase : (gmdm_run P ((timeGrid sfh_times tend).zip sn_rate)
          (initState gasmass_init)).2
      · rfl
      · exact absurd hcase hnb
    rw [hres, ← hplen, hbf hfalse] at hlt
    exact lt_irrefl _ hlt

/-- Witness for C7 (amended): the breaking two-point run, where the returned
sequence (length 1) is indeed shorter than the grid (length 2). -/
theorem gmdm_termination_from_length_check :
    ([(0 : ℚ), 0].length = (timeGrid [2/1000, 3/1000] 1).length) ∧
    ((gmdm_run (quietPhysics 600) ((timeGrid [2/1000, 3/1000] 1).zip [0, 0])
        (initState 1)).2 = true
      ↔ (gas_metal_dust_mass (quietPhysics 600) 1 1 [2/1000, 3/1000] [0, 0]).length
          < (timeGrid [2/1000, 3/1000] 1).length) :=
  ⟨by with_unfolding_all decide,
   gmdm_termination_from_length (quietPhysics 600) 1 1 [2/1000, 3/1000] [0, 0]
     (by with_unfolding_all decide)⟩

/-! ## Claim C4 -/

set_option maxRecDepth 40000 in
/-- C4 counterexample: the dust-to-metal ratio of an appended record can be
negative.  With star formation, inflows, outflows and grain growth off, stars
ejecting 1 Msun/Gyr of metals and of dust, and strong destruction (spec 4.2
rate with destroyed mass × correction = 1000) under supernova rate 10 at the
second grid point, the dust reservoir is driven to −0.008 while the metal
reservoir stays at +0.002, so the recorded ratio is −4. -/
theorem dust_to_metals_negative :
    ∃ r0 ∈ gas_metal_dust_mass dustyPhysics 1 1 [2/1000, 3/1000] [0, 10],
      r0.dust_metals_ratio < 0 := by
  with_unfolding_all decide

/-- C4 amended: for every appended record, the dust-to-metal ratio equals the
clamped quotient — 0 whenever the recorded gas mass or metal mass is
non-positive (the gas mass in fact never is), else `dustmass / metalmass` —
and it is non-negative whenever the recorded dust mass is non-negative (the
code does not clamp a negative dust mass, so the ratio can be negative). -/
theorem dust_to_metals_clamped (P : Physics) (gasmass_init tend : ℚ)
    (sfh_times sn_rate : List ℚ) :
    ∀ r0 ∈ gas_metal_dust_mass P gasmass_init tend sfh_times sn_rate,
      r0.dust_metals_ratio
          = (if r0.mgas ≤ 0 ∨ r0.metalmass ≤ 0 then 0
              else r0.dustmass / r0.metalmass) ∧
      (0 ≤ r0.dustmass → 0 ≤ r0.dust_metals_ratio) ∧
      0 < r0.mgas := by
  intro r0 hr
  have h := gmdm_run_records P ((timeGrid sfh_times tend).zip sn_rate)
    (initState gasmass_init) (by simp [initState]) r0 hr
  refine ⟨h.2, ?_, h.1⟩
  intro hmd
  rw [h.2]
  split_ifs with hcase
  · exact le_refl 0
  · push_neg at hcase
    exact div_nonneg hmd (le_of_lt hcase.2)

set_option maxRecDepth 40000 in
/-- Witness for C4 (amended): the first record of the counterexample run has
ratio 1 = dust/metals with positive gas and metals. -/
theorem dust_to_metals_clamped_check :
    ((gas_metal_dust_mass dustyPhysics 1 1 [2/1000, 3/1000] [0, 10]).headI.dust_metals_ratio
        = (if (gas_metal_dust_mass dustyPhysics 1 1 [2/1000, 3/1000] [0, 10]).headI.mgas ≤ 0
              ∨ (gas_metal_dust_mass dustyPhysics 1 1 [2/1000, 3/1000] [0, 10]).headI.metalmass ≤ 0
            then 0
            else (gas_metal_dust_mass dustyPhysics 1 1 [2/1000, 3/1000] [0, 10]).headI.dustmass
              / (gas_metal_dust_mass dustyPhysics 1 1 [2/1000, 3/1000] [0, 10]).headI.metalmass)) ∧
    (0 ≤ (gas_metal_dust_mass dustyPhysics 1 1 [2/1000, 3/1000] [0, 10]).headI.dustmass →
      0 ≤ (gas_metal_dust_mass dustyPhysics 1 1 [2/1000, 3/1000] [0, 10]).headI.dust_metals_ratio) ∧
    0 < (gas_metal_dust_mass dustyPhysics 1 1 [2/1000, 3/1000] [0, 10]).headI.mgas :=
  dust_to_metals_clamped dustyPhysics 1 1 [2/1000, 3/1000] [0, 10]
    (gas_metal_dust_mass dustyPhysics 1 1 [2/1000, 3/1000] [0, 10]).headI
    (by with_unfolding_all decide)

/-! ## Claim C6 -/

/-- The supernova-rate series has exactly one entry per grid time. -/
theorem supernova_rate_aux_length (imf lk sfr : ℚ → ℚ) :
    ∀ (l : List ℚ) (dm : ℚ), (supernova_rate_aux imf lk sfr l dm).length = l.length := by
  intro l
  induction l with
  | nil =>
    intro dm
    rfl
  | cons t rest ih =>
    intro dm
    simp [supernova_rate_aux, ih]

/-- C6: the supernova-rate series has exactly one entry per SFH grid time with
`t < t_end`, in the same order: its length equals the truncated grid's length,
and its `i`-th entry is defined exactly when the `i`-th grid time is, equal to
the star-formation rate at that grid time times the mass sum for that grid
time (with the step variable as left by the earlier grid times) — so the index
used to read `sn_rate` at step `i` of `gas_metal_dust_mass` refers to the same
grid time `t_i`. -/
theorem supernova_rate_grid_alignment (imf lk sfr : ℚ → ℚ) (sfh_times : List ℚ)
    (tend : ℚ) (i : ℕ) :
    (supernova_rate imf lk sfr sfh_times tend).length
        = (timeGrid sfh_times tend).length ∧
    (supernova_rate imf lk sfr sfh_times tend).get? i
        = ((timeGrid sfh_times tend).get? i).map (fun t =>
            sfr t * (sn_mass_loop imf snFuel (snStartMass lk t)
              (snDmState imf lk ((timeGrid sfh_times tend).take i) (1/100)) 0).1) :=
  ⟨supernova_rate_aux_length imf lk sfr (timeGrid sfh_times tend) (1/100),
   supernova_rate_aux_get imf lk sfr (timeGrid sfh_times tend) (1/100) i⟩

/-! ## Claim C2 -/

/-- C2 counterexample: with the constant IMF density 1, constant
star-formation rate 1 and the grid {0.1, 0.2} (both times past 0.049 Gyr, so
the loop starts at mass 9 both times), `supernova_rate` yields 31.01 at the
first grid time but 31 at the second, while the claimed step-size rule (0.01
below 10 solar masses, 0.5 above, at EVERY grid time — `spec_supernova_rate`)
yields 31.01 at both: the step variable `dm` is initialised once, outside the
time loop, and stays 0.5 after the first grid time. -/
theorem supernova_rate_rule_fails :
    supernova_rate (fun _ => 1) (fun _ => 9) (fun _ => 1) [1/10, 2/10] 1
      = [3101/100, 31] ∧
    spec_supernova_rate (fun _ => 1) (fun _ => 9) (fun _ => 1) [1/10, 2/10] 1
      = [3101/100, 3101/100] ∧
    (31 : ℚ) ≠ 3101/100 := by
  have hg : timeGrid [(1 : ℚ)/10, 2/10] 1 = [1/10, 2/10] := by
    norm_num [timeGrid]
  have hm : snStartMass (fun _ => (9 : ℚ)) (1/10) = 9 := by
    norm_num [snStartMass]
  have hm2 : snStartMass (fun _ => (9 : ℚ)) (2/10) = 9 := by
    norm_num [snStartMass]
  have h1 : (sn_mass_loop (fun _ => (1 : ℚ)) snFuel 9 (1/100) 0).1 = 3101/100 :=
    sn_rule_sum_one
  have h2 : sn_half_sum (fun _ => (1 : ℚ)) = 31 := sn_half_sum_one
  refine ⟨?_, ?_, by norm_num⟩
  · rw [supernova_rate, hg]
    simp only [supernova_rate_aux, hm]
    rw [sn_loop_rule_snd]
    rw [hm2, h1,
      show (sn_mass_loop (fun _ => (1 : ℚ)) snFuel 9 (1/2) 0).1 = 31 from sn_half_sum_one]
    norm_num
  · rw [spec_supernova_rate, hg]
    simp only [List.map_cons, List.map_nil, hm, hm2]
    rw [h1]
    norm_num

/-- C2 amended: the claimed step-size rule holds at the first grid time only.
On any grid whose times are all at or past 0.049 Gyr (starting mass 9), the
first entry is `sfr t0` times the rule sum, and every later entry is `sfr t`
times the uniform-0.5-step sum, because the step variable `dm` is initialised
to 0.01 once, outside the time loop, is driven to 0.5 during the first grid
time's mass walk, and is never reset. -/
theorem supernova_rate_dm_carries (imf lk sfr : ℚ → ℚ) (sfh_times : List ℚ)
    (tend : ℚ) (h : ∀ t ∈ timeGrid sfh_times tend, 49/1000 ≤ t) :
    supernova_rate imf lk sfr sfh_times tend
      = sn_expected imf sfr (timeGrid sfh_times tend) := by
  rw [supernova_rate]
  cases hg : timeGrid sfh_times tend with
  | nil => rfl
  | cons t0 rest =>
    rw [hg] at h
    have ht0 : ¬ t0 < 49/1000 :=
      not_lt.mpr (h t0 (List.mem_cons_self t0 rest))
    simp only [supernova_rate_aux, snStartMass, if_neg ht0, sn_expected]
    rw [sn_loop_rule_snd imf]
    rw [supernova_rate_aux_stuck imf lk sfr rest
      (fun u hu => h u (List.mem_cons_of_mem t0 hu))]
    rfl

/-- Witness for C2 (amended): the two-time grid {0.1, 0.2} with constant IMF
density and star-formation rate 1. -/
theorem supernova_rate_dm_carries_check :
    (∀ t ∈ timeGrid [(1 : ℚ)/10, 2/10] 1, 49/1000 ≤ t) ∧
    supernova_rate (fun _ => 1) (fun _ => 9) (fun _ => 1) [1/10, 2/10] 1
      = sn_expected (fun _ => 1) (fun _ => 1) (timeGrid [(1 : ℚ)/10, 2/10] 1) :=
  ⟨by intro t ht; simp [timeGrid] at ht; rcases ht.1 with h | h <;> rw [h] <;> norm_num,
   supernova_rate_dm_carries (fun _ => 1) (fun _ => 9) (fun _ => 1) [1/10, 2/10] 1
     (by intro t ht; simp [timeGrid] at ht; rcases ht.1 with h | h <;> rw [h] <;> norm_num)⟩

/-! ## Claim C8 -/

/-- C8 counterexample: in batch mode a failing configuration aborts the
sibling runs.  A batch of a galaxy with unrecognized `dust_source` (whose
`ChemModel.__init__` calls `exit()`) followed by a perfectly valid galaxy
yields nothing at all — even though the valid galaxy on its own runs fine. -/
theorem evolve_all_abort_counterexample :
    evolve_all [badGalaxy, goodGalaxy] = none ∧
    evolve_one goodGalaxy = some [] := by
  constructor <;> with_unfolding_all decide

/-- C8 amended: `evolve_all` has no per-galaxy exception handling; a galaxy
whose `dust_source` is unrecognized makes `ChemModel.__init__` call `exit()`,
killing the whole batch: whatever comes before or after it in the list, the
batch produces no result. -/
theorem evolve_all_abort_after_bad (gs : List Galaxy) (g : Galaxy)
    (gs2 : List Galaxy) (hbad : select_dust_source g.dust_str = none) :
    evolve_all (gs ++ g :: gs2) = none := by
  induction gs with
  | nil =>
    simp only [List.nil_append, evolve_all, evolve_one, chemModel_init, hbad]
  | cons g0 rest ih =>
    simp only [List.cons_append, evolve_all]
    cases h0 : evolve_one g0 with
    | none => rfl
    | some res =>
      have ih2 : evolve_all (rest.append (g :: gs2)) = none := ih
      rw [ih2]
      rfl

/-- Witness for C8 (amended): a valid galaxy before and after the bad one,
and still the whole batch dies. -/
theorem evolve_all_abort_after_bad_check :
    select_dust_source badGalaxy.dust_str = none ∧
    evolve_all ([goodGalaxy] ++ badGalaxy :: [goodGalaxy]) = none :=
  ⟨by with_unfolding_all decide,
   evolve_all_abort_after_bad [goodGalaxy] badGalaxy [goodGalaxy]
     (by with_unfolding_all decide)⟩

/-! ## Claim C10 -/

/-- An IMF spelling outside the alias list selects nothing. -/
theorem select_imf_eq_none (s : String) (h : s ∉ imf_aliases) :
    select_imf s = none := by
  simp only [imf_aliases, List.mem_cons, List.not_mem_nil, or_false, not_or] at h
  obtain ⟨h1, h2, h3, h4, h5, h6, h7, h8, h9, h10, h11, h12⟩ := h
  simp [select_imf, h1, h2, h3, h4, h5, h6, h7, h8, h9, h10, h11, h12]

/-- A dust-source spelling outside the alias list reaches the `exit()`. -/
theorem select_dust_source_eq_none (s : String)
    (h : s ∉ dust_source_aliases) : select_dust_source s = none := by
  simp only [dust_source_aliases, List.mem_cons, List.not_mem_nil, or_false,
    not_or] at h
  obtain ⟨h1, h2, h3, h4, h5, h6, h7, h8, h9, h10, h11, h12, h13⟩ := h
  simp [select_dust_source, h1, h2, h3, h4, h5, h6, h7, h8, h9, h10, h11, h12, h13]

/-- C10: for any `dust_source` spelling outside the recognized aliases of
ALL / SN / LIMS / SN+LIMS, `ChemModel` construction terminates the entire
process via `exit()` (modelled as `none`), whereas an unrecognized `IMF_fn`
spelling is accepted silently: for every recognized dust-source spelling the
construction succeeds with no IMF selected (`imf = none`). -/
theorem init_dust_exit_imf_silent (si sd : String)
    (hd : sd ∉ dust_source_aliases) (hi : si ∉ imf_aliases) :
    chemModel_init si sd = none ∧
    ∀ sd2 ∈ dust_source_aliases,
      ∃ m, chemModel_init si sd2 = some m ∧ m.imf = none := by
  constructor
  · simp [chemModel_init, select_dust_source_eq_none sd hd]
  · intro sd2 hmem
    fin_cases hmem <;>
      exact ⟨_, rfl, select_imf_eq_none si hi⟩

/-- Witness for C10: the spellings "bogus" (IMF) and "junk" (dust source). -/
theorem init_dust_exit_imf_silent_check :
    chemModel_init "bogus" "junk" = none ∧
    ∃ m, chemModel_init "bogus" "ALL" = some m ∧ m.imf = none :=
  ⟨(init_dust_exit_imf_silent "bogus" "junk" (by decide) (by decide)).1,
   (init_dust_exit_imf_silent "bogus" "junk" (by decide) (by decide)).2 "ALL"
     (by decide)⟩
